import Mathlib

/-!
Shallow embedding of `src/amo/components/AddonReviewListItem/index.js`
(the `AddonReviewListItemBase` component, its event handlers, its render
logic and `mapStateToProps`).  Event handlers are embedded as functions
from the component's props to `Except String (List ReviewAction)`:
`Except.error` models a thrown JS `Error`, `Except.ok acts` models normal
completion having dispatched exactly the actions in `acts` (in order).
Render logic is embedded as pure functions from props to a description of
the produced markup tree.
-/

namespace AddonReviewListItem

/-- Reply to a review (`review.reply` in `UserReviewType`): itself
review-shaped, but without further nesting. -/
structure ReviewReply where
  id : Nat
  title : String
  body : String
  rating : Nat
  userId : Nat
  userName : String
  created : Nat
  deriving Repr, DecidableEq

/-- External review value (`UserReviewType` from `amo/actions/reviews`):
identifier, title, body text, rating, author identifier/name, creation
timestamp, optional nested reply. -/
structure Review where
  id : Nat
  title : String
  body : String
  rating : Nat
  userId : Nat
  userName : String
  created : Nat
  reply : Option ReviewReply
  deriving Repr, DecidableEq

/-- Current viewer (`siteUser : UserStateType`, a required prop supplied by
`mapStateToProps` from `state.user`).  `id = none` models the `null`
identifier of an unauthenticated visitor. -/
structure SiteUser where
  id : Option Nat
  deriving Repr, DecidableEq

/-- Add-on context (`addon?: AddonType`); only the author identifiers are
relevant to this component. -/
structure Addon where
  authors : List Nat
  deriving Repr, DecidableEq

/-- Error handler capability (`ErrorHandlerType`): a correlation id and a
has-error query. -/
structure ErrorHandler where
  id : String
  hasError : Bool
  deriving Repr, DecidableEq

/-- Actions dispatched to the store (creators imported from
`amo/actions/reviews`). -/
inductive ReviewAction where
  | showEditReviewForm (reviewId : Nat)
  | hideEditReviewForm (reviewId : Nat)
  | showReplyToReviewForm (reviewId : Nat)
  | hideReplyToReviewForm (reviewId : Nat)
  | sendReplyToReview (errorHandlerId : String) (originalReviewId : Nat) (body : String)
  deriving Repr, DecidableEq

/-- The component's props (`PropsType`). -/
structure Props where
  addon : Option Addon
  editingReview : Bool
  errorHandler : ErrorHandler
  isAuthenticated : Bool
  isReplyToReviewId : Option Nat
  review : Option Review
  replyingToReview : Bool
  siteUser : SiteUser
  submittingReply : Bool
  deriving Repr, DecidableEq

/-- Handler `onClickToEditReview` (index.js lines 51-65): if
`isReplyToReviewId` is defined, dispatch `showReplyToReviewForm` for that
id; else, if no review is loaded, log and dispatch nothing; else dispatch
`showEditReviewForm` for the review's id. -/
def onClickToEditReview (p : Props) : Except String (List ReviewAction) :=
  match p.isReplyToReviewId with
  | some replyId => Except.ok [ReviewAction.showReplyToReviewForm replyId]
  | none =>
    match p.review with
    | none => Except.ok []
    | some review => Except.ok [ReviewAction.showEditReviewForm review.id]

/-- Handler `onEscapeReviewOverlay` (lines 67-78): no review loaded means
log and dispatch nothing; otherwise dispatch `hideEditReviewForm`. -/
def onEscapeReviewOverlay (p : Props) : Except String (List ReviewAction) :=
  match p.review with
  | none => Except.ok []
  | some review => Except.ok [ReviewAction.hideEditReviewForm review.id]

/-- Handler `onReviewSubmitted` (lines 80-88): no review loaded means log
and dispatch nothing; otherwise dispatch `hideEditReviewForm`. -/
def onReviewSubmitted (p : Props) : Except String (List ReviewAction) :=
  match p.review with
  | none => Except.ok []
  | some review => Except.ok [ReviewAction.hideEditReviewForm review.id]

/-- Handler `onClickToBeginReviewReply` (lines 90-99): no review loaded
means log and dispatch nothing; otherwise dispatch
`showReplyToReviewForm`. -/
def onClickToBeginReviewReply (p : Props) : Except String (List ReviewAction) :=
  match p.review with
  | none => Except.ok []
  | some review => Except.ok [ReviewAction.showReplyToReviewForm review.id]

/-- Handler `onDismissReviewReply` (lines 101-109): no review loaded means
log and dispatch nothing; otherwise dispatch `hideReplyToReviewForm`. -/
def onDismissReviewReply (p : Props) : Except String (List ReviewAction) :=
  match p.review with
  | none => Except.ok []
  | some review => Except.ok [ReviewAction.hideReplyToReviewForm review.id]

/-- Handler `onSubmitReviewReply` (lines 111-123): throws when no review is
loaded; otherwise dispatches `sendReplyToReview` with the error handler's
correlation id, the original review's id and the submitted text. -/
def onSubmitReviewReply (p : Props) (text : String) : Except String (List ReviewAction) :=
  match p.review with
  | none =>
    Except.error "The review property cannot be empty when replying to a review"
  | some review =>
    Except.ok [ReviewAction.sendReplyToReview p.errorHandler.id review.id text]

/-- Modelled from the spec: `nl2br` (imported from `core/utils`, whose
source is not under `src/`) converts each newline character (`\r\n`, `\r`
or `\n`) in the text into a line-break tag. -/
def nl2brChars : List Char → List Char
  | [] => []
  | '\r' :: '\n' :: rest => "<br />".toList ++ nl2brChars rest
  | '\r' :: rest => "<br />".toList ++ nl2brChars rest
  | '\n' :: rest => "<br />".toList ++ nl2brChars rest
  | c :: rest => c :: nl2brChars rest

/-- Modelled from the spec: string-level wrapper of `nl2brChars`. -/
def nl2br (s : String) : String :=
  String.mk (nl2brChars s.toList)

/-- Reads the characters of a tag opened by `<`: returns the characters
before the closing `>` and the remainder after it, or `none` when the tag
is never closed. -/
def splitTag : List Char → Option (List Char × List Char)
  | [] => none
  | '>' :: rest => some ([], rest)
  | c :: rest =>
    match splitTag rest with
    | none => none
    | some (tag, rest2) => some (c :: tag, rest2)

/-- ASCII lower-casing of one character. -/
def lowerChar (c : Char) : Char :=
  if c.toNat ≥ 65 && c.toNat ≤ 90 then Char.ofNat (c.toNat + 32) else c

/-- Lower-cased element name of a tag's contents (a leading `/` of a
closing tag is skipped, the name stops at the first non-letter). -/
def tagName (tag : List Char) : String :=
  let tag := match tag with
    | '/' :: rest => rest
    | rest => rest
  String.mk ((tag.takeWhile (fun c => c.isAlpha)).map lowerChar)

/-- Drops everything up to and including the first closing script tag;
models a sanitizer discarding the entire content of a disallowed script
element. -/
def dropScript : List Char → List Char
  | [] => []
  | '<' :: '/' :: 's' :: 'c' :: 'r' :: 'i' :: 'p' :: 't' :: '>' :: rest => rest
  | _ :: rest => dropScript rest

/-- Modelled from the spec: core of `sanitizeHTML` (imported from
`core/utils`, whose source is not under `src/`) — only tags whose element
name is on the allow-list survive; any other tag is removed, and a script
element's content is removed with it, so that no script content reaches
the rendered markup.  `fuel` bounds the recursion; every step consumes at
least one input character, so `fuel = input length` suffices. -/
def sanitizeChars (allowed : List String) : Nat → List Char → List Char
  | 0, _ => []
  | fuel + 1, l =>
    match l with
    | [] => []
    | '<' :: rest =>
      match splitTag rest with
      | none => []
      | some (tag, rest2) =>
        if allowed.contains (tagName tag) then
          '<' :: (tag ++ '>' :: sanitizeChars allowed fuel rest2)
        else if tagName tag == "script" then
          sanitizeChars allowed fuel (dropScript rest2)
        else
          sanitizeChars allowed fuel rest2
    | c :: rest => c :: sanitizeChars allowed fuel rest

/-- Modelled from the spec: `sanitizeHTML(text, allowTags)` returns the
sanitized markup (the `__html` payload of the source's return value). -/
def sanitizeHTML (text : String) (allowTags : List String) : String :=
  String.mk (sanitizeChars allowTags text.toList.length text.toList)

/-- Modelled from the spec: `isAddonAuthor` (imported from `core/utils`,
whose source is not under `src/`) decides whether the given user is one of
the add-on's authors; with no user identifier (unauthenticated viewer) it
is false. -/
def isAddonAuthor (addon : Addon) (userId : Option Nat) : Bool :=
  match userId with
  | none => false
  | some uid => addon.authors.contains uid

/-- Condition of the edit affordance (render, lines 234-260):
`userIsAuthenticated && review && review.userId === siteUser.id`.  The
strict JS equality of the numeric `review.userId` against the
number-or-null `siteUser.id` is `Option` equality here. -/
def editShown (p : Props) : Bool :=
  p.isAuthenticated &&
    (match p.review with
     | none => false
     | some review => some review.userId == p.siteUser.id)

/-- Condition of the reply-begin affordance (render, lines 261-276):
`review && addon && siteUser && !replyingToReview && !review.reply &&
isAddonAuthor({ addon, userId: siteUser.id }) && review.userId !==
siteUser.id`.  `siteUser` is a required object prop (always truthy), so
its conjunct is constant true. -/
def replyBeginShown (p : Props) : Bool :=
  match p.review, p.addon with
  | some review, some addon =>
    !p.replyingToReview && review.reply.isNone &&
      isAddonAuthor addon p.siteUser.id &&
      !(some review.userId == p.siteUser.id)
  | _, _ => false

/-- Content of the developer-response block produced by `renderReply`:
either the reply composer (`DismissibleTextForm`, when `replyingToReview`)
or a nested `AddonReviewListItem` rendering the existing reply. -/
inductive ReplyContent where
  | form (isSubmitting : Bool) (submitButtonText : String)
      (submitButtonInProgressText : String) (text : Option String)
  | nestedItem (isReplyToReviewId : Nat) (review : Option ReviewReply)
  deriving Repr, DecidableEq

/-- Method `renderReply` (lines 125-173): returns nothing when no review is
loaded or when there is neither an existing reply nor an active reply
view-state; otherwise the developer-response block. -/
def renderReply (p : Props) : Option ReplyContent :=
  match p.review with
  | none => none
  | some review =>
    if review.reply.isNone && !p.replyingToReview then
      none
    else if p.replyingToReview then
      some (ReplyContent.form
        (p.submittingReply && !p.errorHandler.hasError)
        (if review.reply.isSome then "Update reply" else "Publish reply")
        (if review.reply.isSome then "Updating reply" else "Publishing reply")
        (review.reply.map (fun reply => reply.body)))
    else
      some (ReplyContent.nestedItem review.id review.reply)

/-- A rendered text element: an indeterminate-length `LoadingText`
placeholder, plain text, or markup inserted via
`dangerouslySetInnerHTML`. -/
inductive TextNode where
  | loading
  | text (s : String)
  | markup (s : String)
  deriving Repr, DecidableEq

/-- The byline under the review title: placeholder while loading,
"posted <timestamp>" for a reply, "by <author>, <timestamp>" otherwise
(the relative timestamp itself is computed by the external `i18n.moment`
collaborator from `review.created`). -/
inductive Byline where
  | loading
  | posted (created : Nat)
  | byAuthor (authorName : String) (created : Nat)
  deriving Repr, DecidableEq

/-- The edit control `div`: the `AddonReview` overlay (shown iff
`editingReview`) plus the edit link with its label. -/
structure EditControl where
  overlayShown : Bool
  label : String
  deriving Repr, DecidableEq

/-- Description of the tree produced by `render` (lines 175-282). -/
structure RenderOutput where
  title : TextNode
  body : TextNode
  ratingShown : Bool
  byline : Byline
  editControl : Option EditControl
  replyBegin : Bool
  errorShown : Bool
  reply : Option ReplyContent
  deriving Repr, DecidableEq

/-- Method `render` (lines 175-282), translated clause by clause: with a
review loaded, the title is its text, the body is the sanitized markup of
`sanitizeHTML(nl2br(review.body), ['br'])`, the rating shows only for a
top-level review; otherwise title, byline and body are `LoadingText`
placeholders. -/
def render (p : Props) : RenderOutput :=
  let isReply := p.isReplyToReviewId.isSome
  let editControl :=
    if editShown p then
      some { overlayShown := p.editingReview
             label := if isReply then "Edit my reply" else "Edit my review" }
    else none
  match p.review with
  | some review =>
    { title := TextNode.text review.title
      body := TextNode.markup (sanitizeHTML (nl2br review.body) ["br"])
      ratingShown := !isReply
      byline := if isReply then Byline.posted review.created
        else Byline.byAuthor review.userName review.created
      editControl := editControl
      replyBegin := replyBeginShown p
      errorShown := p.errorHandler.hasError
      reply := renderReply p }
  | none =>
    { title := TextNode.loading
      body := TextNode.loading
      ratingShown := false
      byline := Byline.loading
      editControl := editControl
      replyBegin := replyBeginShown p
      errorShown := p.errorHandler.hasError
      reply := renderReply p }

/-- Per-review view-state entry (`state.reviews.view[id]`). -/
structure ViewStateEntry where
  editingReview : Bool
  replyingToReview : Bool
  submittingReply : Bool
  deriving Repr, DecidableEq

/-- The reviews store slice (`ReviewState`): the `view` map keyed by review
identifier. -/
structure ReviewState where
  view : Nat → Option ViewStateEntry

/-- The connected store state: `{ user: UserStateType, reviews: ReviewState }`. -/
structure AppState where
  user : SiteUser
  reviews : ReviewState

/-- Modelled from the spec: `isAuthenticated` (from `core/reducers/user`,
whose source is not under `src/`) reports whether the current viewer is
authenticated; authenticated viewers have an identifier. -/
def isAuthenticated (state : AppState) : Bool :=
  state.user.id.isSome

/-- The props derived by `mapStateToProps` (lines 285-307). -/
structure DerivedProps where
  editingReview : Bool
  isAuthenticated : Bool
  replyingToReview : Bool
  siteUser : SiteUser
  submittingReply : Bool
  deriving Repr, DecidableEq

/-- `mapStateToProps` (lines 285-307): the three view-state flags default
to false and are read from `state.reviews.view[ownProps.review.id]` only
when both the review prop and its view entry exist. -/
def mapStateToProps (state : AppState) (ownPropsReview : Option Review) : DerivedProps :=
  let flags :=
    match ownPropsReview with
    | some review =>
      match state.reviews.view review.id with
      | some view => (view.editingReview, view.replyingToReview, view.submittingReply)
      | none => (false, false, false)
    | none => (false, false, false)
  { editingReview := flags.1
    isAuthenticated := isAuthenticated state
    replyingToReview := flags.2.1
    siteUser := state.user
    submittingReply := flags.2.2 }

/-- Own props passed to the connected component. -/
structure OwnProps where
  addon : Option Addon
  isReplyToReviewId : Option Nat
  review : Option Review
  deriving Repr, DecidableEq

/-- Composition performed by `connect(mapStateToProps)` (lines 309-313):
the base component's props are the own props merged with the derived
props (plus the error handler injected by `withErrorHandler`). -/
def connectProps (state : AppState) (op : OwnProps) (eh : ErrorHandler) : Props :=
  let derived := mapStateToProps state op.review
  { addon := op.addon
    editingReview := derived.editingReview
    errorHandler := eh
    isAuthenticated := derived.isAuthenticated
    isReplyToReviewId := op.isReplyToReviewId
    review := op.review
    replyingToReview := derived.replyingToReview
    siteUser := derived.siteUser
    submittingReply := derived.submittingReply }

/-! Concrete sample values used by the witnesses. -/

/-- A sample developer reply. -/
def sampleReply : ReviewReply :=
  { id := 22, title := "re", body := "thanks", rating := 0, userId := 7,
    userName := "dev", created := 100 }

/-- A sample review without a developer reply. -/
def sampleReview : Review :=
  { id := 5, title := "nice", body := "b", rating := 4, userId := 3,
    userName := "alice", created := 90, reply := none }

/-- A sample review that already carries a developer reply. -/
def sampleReviewWithReply : Review :=
  { sampleReview with reply := some sampleReply }

/-- A sample error handler with no outstanding error. -/
def sampleErrorHandler : ErrorHandler := { id := "eh-1", hasError := false }

/-- Sample props: the viewer (user 7) is the add-on author looking at a
reply-less review written by user 3. -/
def sampleProps : Props :=
  { addon := some { authors := [7] }
    editingReview := false
    errorHandler := sampleErrorHandler
    isAuthenticated := true
    isReplyToReviewId := none
    review := some sampleReview
    replyingToReview := false
    siteUser := { id := some 7 }
    submittingReply := false }

/-- Claim C1: if submit-reply (`onSubmitReviewReply`) is invoked while the
review input is absent it fails fatally (throws) and dispatches nothing;
if the review is present it dispatches exactly one `sendReplyToReview`
action carrying the error handler's correlation id, the original review's
identifier and the submitted text body. -/
theorem onSubmitReviewReply_spec (p : Props) (text : String) :
    (p.review = none →
      onSubmitReviewReply p text =
        Except.error "The review property cannot be empty when replying to a review") ∧
    (∀ review, p.review = some review →
      onSubmitReviewReply p text =
        Except.ok [ReviewAction.sendReplyToReview p.errorHandler.id review.id text]) := by
  constructor
  · intro h
    simp [onSubmitReviewReply, h]
  · intro review h
    simp [onSubmitReviewReply, h]

theorem onSubmitReviewReply_spec_witness :
    onSubmitReviewReply { sampleProps with review := none } "hi" =
      Except.error "The review property cannot be empty when replying to a review" ∧
    onSubmitReviewReply sampleProps "hi" =
      Except.ok [ReviewAction.sendReplyToReview "eh-1" 5 "hi"] :=
  ⟨(onSubmitReviewReply_spec { sampleProps with review := none } "hi").1 rfl,
   (onSubmitReviewReply_spec sampleProps "hi").2 sampleReview rfl⟩

/-- Claim C4: whenever `isReplyToReviewId` is defined, clicking the edit
affordance dispatches a `showReplyToReviewForm` action for the reply
identifier and never a `showEditReviewForm` action — even when the review
input is absent (as the witness exercises). -/
theorem onClickToEditReview_reply_spec (p : Props) (replyId : Nat)
    (h : p.isReplyToReviewId = some replyId) :
    onClickToEditReview p = Except.ok [ReviewAction.showReplyToReviewForm replyId] ∧
    (∀ acts id, onClickToEditReview p = Except.ok acts →
      ReviewAction.showEditReviewForm id ∉ acts) := by
  have heq : onClickToEditReview p
      = Except.ok [ReviewAction.showReplyToReviewForm replyId] := by
    simp [onClickToEditReview, h]
  refine ⟨heq, ?_⟩
  intro acts id hacts
  rw [heq] at hacts
  cases hacts
  simp

theorem onClickToEditReview_reply_spec_witness :
    onClickToEditReview
        { sampleProps with isReplyToReviewId := some 5, review := none } =
      Except.ok [ReviewAction.showReplyToReviewForm 5] :=
  (onClickToEditReview_reply_spec
    { sampleProps with isReplyToReviewId := some 5, review := none } 5 rfl).1

/-- Claim C6: each of cancel-edit (`onEscapeReviewOverlay`), commit-edit
(`onReviewSubmitted`), begin-reply (`onClickToBeginReviewReply`) and
cancel-reply (`onDismissReviewReply`) completes without throwing and
dispatches nothing when the review input is absent, and dispatches exactly
one action (`hideEditReviewForm`, `hideEditReviewForm`,
`showReplyToReviewForm`, `hideReplyToReviewForm` respectively) for the
review's identifier when it is present. -/
theorem silentHandlers_spec (p : Props) :
    (p.review = none →
      onEscapeReviewOverlay p = Except.ok [] ∧
      onReviewSubmitted p = Except.ok [] ∧
      onClickToBeginReviewReply p = Except.ok [] ∧
      onDismissReviewReply p = Except.ok []) ∧
    (∀ review, p.review = some review →
      onEscapeReviewOverlay p = Except.ok [ReviewAction.hideEditReviewForm review.id] ∧
      onReviewSubmitted p = Except.ok [ReviewAction.hideEditReviewForm review.id] ∧
      onClickToBeginReviewReply p = Except.ok [ReviewAction.showReplyToReviewForm review.id] ∧
      onDismissReviewReply p = Except.ok [ReviewAction.hideReplyToReviewForm review.id]) := by
  constructor
  · intro h
    simp [onEscapeReviewOverlay, onReviewSubmitted,
      onClickToBeginReviewReply, onDismissReviewReply, h]
  · intro review h
    simp [onEscapeReviewOverlay, onReviewSubmitted,
      onClickToBeginReviewReply, onDismissReviewReply, h]

theorem silentHandlers_spec_witness :
    (onEscapeReviewOverlay { sampleProps with review := none } = Except.ok [] ∧
      onReviewSubmitted { sampleProps with review := none } = Except.ok [] ∧
      onClickToBeginReviewReply { sampleProps with review := none } = Except.ok [] ∧
      onDismissReviewReply { sampleProps with review := none } = Except.ok []) ∧
    onClickToBeginReviewReply sampleProps =
      Except.ok [ReviewAction.showReplyToReviewForm 5] :=
  ⟨(silentHandlers_spec { sampleProps with review := none }).1 rfl,
   ((silentHandlers_spec sampleProps).2 sampleReview rfl).2.2.1⟩

/-- Claim C3: the edit affordance is rendered iff the viewer is
authenticated, the review is present, and the review's author identifier
equals the viewer's identifier (the viewer therefore has one). -/
theorem editShown_iff (p : Props) :
    editShown p = true ↔
      (p.isAuthenticated = true ∧
        ∃ review, p.review = some review ∧ p.siteUser.id = some review.userId) := by
  cases hr : p.review with
  | none => simp [editShown, hr]
  | some review =>
    simp only [editShown, hr, Bool.and_eq_true, beq_iff_eq, Option.some.injEq]
    constructor
    · rintro ⟨ha, hid⟩
      exact ⟨ha, review, rfl, hid.symm⟩
    · rintro ⟨ha, r, hrr, hid⟩
      cases hrr
      exact ⟨ha, hid.symm⟩

theorem editShown_iff_witness :
    editShown { sampleProps with siteUser := { id := some 3 } } = true :=
  (editShown_iff { sampleProps with siteUser := { id := some 3 } }).mpr
    ⟨rfl, sampleReview, rfl, rfl⟩

/-- Claim C2: the reply-begin affordance is rendered iff the review and an
add-on are present (the viewer, a required prop, always is), the
view-state is not already replying, the review has no existing reply, the
viewer is the add-on's author, and the viewer's identifier differs from
the review's author identifier; in particular it is never shown for a
review that already has a reply. -/
theorem replyBeginShown_iff (p : Props) :
    (replyBeginShown p = true ↔
      (∃ review addon, p.review = some review ∧ p.addon = some addon ∧
        p.replyingToReview = false ∧ review.reply = none ∧
        isAddonAuthor addon p.siteUser.id = true ∧
        ¬ p.siteUser.id = some review.userId)) ∧
    (∀ review reply, p.review = some review → review.reply = some reply →
      replyBeginShown p = false) := by
  constructor
  · cases hr : p.review with
    | none => simp [replyBeginShown, hr]
    | some review =>
      cases ha : p.addon with
      | none => simp [replyBeginShown, hr, ha]
      | some addon =>
        simp only [replyBeginShown, hr, ha, Bool.and_eq_true, Bool.not_eq_true',
          beq_eq_false_iff_ne, ne_eq, Option.isNone_iff_eq_none, Option.some.injEq]
        constructor
        · rintro ⟨⟨⟨hrep, hnone⟩, hauth⟩, hne⟩
          exact ⟨review, addon, rfl, rfl, hrep, hnone, hauth, fun h => hne h.symm⟩
        · rintro ⟨r, a, hrr, haa, hrep, hnone, hauth, hne⟩
          cases hrr; cases haa
          exact ⟨⟨⟨hrep, hnone⟩, hauth⟩, fun h => hne h.symm⟩
  · intro review reply hrr hrep
    cases ha : p.addon with
    | none => simp [replyBeginShown, hrr, ha]
    | some addon => simp [replyBeginShown, hrr, ha, hrep]

theorem replyBeginShown_iff_witness :
    replyBeginShown sampleProps = true ∧
    replyBeginShown { sampleProps with review := some sampleReviewWithReply } = false :=
  ⟨(replyBeginShown_iff sampleProps).1.mpr
      ⟨sampleReview, { authors := [7] }, rfl, rfl, rfl, rfl, by decide, by decide⟩,
   (replyBeginShown_iff { sampleProps with review := some sampleReviewWithReply }).2
      sampleReviewWithReply sampleReply rfl rfl⟩

/-- A sample view-state entry with an active reply composer. -/
def sampleViewReplying : ViewStateEntry :=
  { editingReview := false, replyingToReview := true, submittingReply := true }

/-- A sample store state whose view map holds `sampleViewReplying` for
review 5 and nothing else. -/
def sampleState : AppState :=
  { user := { id := some 7 }
    reviews := { view := fun i => if i = 5 then some sampleViewReplying else none } }

/-- A sample store state with an empty view map and an anonymous viewer. -/
def sampleEmptyState : AppState :=
  { user := { id := none }, reviews := { view := fun _ => none } }

/-- Sample own props around `sampleReview`. -/
def sampleOwnProps : OwnProps :=
  { addon := some { authors := [7] }, isReplyToReviewId := none,
    review := some sampleReview }

/-- Presence of the developer-response block at the props level: it
appears exactly when a review is loaded and it either carries a reply or
the view-state is replying. -/
theorem renderReply_isSome_iff (p : Props) :
    (renderReply p).isSome = true ↔
      (∃ review, p.review = some review ∧
        (review.reply.isSome = true ∨ p.replyingToReview = true)) := by
  cases hr : p.review with
  | none => simp [renderReply, hr]
  | some review =>
    cases hrep : review.reply with
    | none =>
      cases hfl : p.replyingToReview <;>
        simp [renderReply, hr, hrep, hfl]
    | some reply =>
      cases hfl : p.replyingToReview <;>
        simp [renderReply, hr, hrep, hfl]

/-- The derived `replyingToReview` flag can only be true when the review
own-prop is present (it defaults to false otherwise). -/
theorem replying_implies_review (state : AppState) (op : OwnProps) (eh : ErrorHandler) :
    (connectProps state op eh).replyingToReview = true → op.review.isSome = true := by
  cases hr : op.review <;> simp [connectProps, mapStateToProps, hr]

/-- Claim C5: through the connected component (whose `replyingToReview` is
derived by `mapStateToProps`), the developer-response block is rendered
iff the review has an existing reply or `replyingToReview` is true. -/
theorem renderReply_connected_iff (state : AppState) (op : OwnProps) (eh : ErrorHandler) :
    (renderReply (connectProps state op eh)).isSome = true ↔
      ((∃ review reply, op.review = some review ∧ review.reply = some reply) ∨
        (connectProps state op eh).replyingToReview = true) := by
  rw [renderReply_isSome_iff]
  have hrev : (connectProps state op eh).review = op.review := rfl
  rw [hrev]
  constructor
  · rintro ⟨review, hrr, h | h⟩
    · rcases Option.isSome_iff_exists.mp h with ⟨reply, hrep⟩
      exact Or.inl ⟨review, reply, hrr, hrep⟩
    · exact Or.inr h
  · rintro (⟨review, reply, hrr, hrep⟩ | h)
    · exact ⟨review, hrr, Or.inl (by simp [hrep])⟩
    · rcases Option.isSome_iff_exists.mp
        (replying_implies_review state op eh h) with ⟨review, hrr⟩
      exact ⟨review, hrr, Or.inr h⟩

theorem renderReply_connected_iff_witness :
    (renderReply (connectProps sampleState sampleOwnProps sampleErrorHandler)).isSome = true :=
  (renderReply_connected_iff sampleState sampleOwnProps sampleErrorHandler).mpr
    (Or.inr rfl)

/-- Claim C7: with a review present the rendered body markup is exactly
`sanitizeHTML(nl2br(review.body), ['br'])`, and on the body
`"<script>x</script>\nhi"` that pipeline yields `"<br />hi"` — the script
tag and its content are gone and the newline became exactly one
line-break tag. -/
theorem render_body_sanitized (p : Props) (review : Review) (h : p.review = some review) :
    (render p).body = TextNode.markup (sanitizeHTML (nl2br review.body) ["br"]) ∧
    sanitizeHTML (nl2br "<script>x</script>\nhi") ["br"] = "<br />hi" := by
  refine ⟨?_, by decide⟩
  simp [render, h]

theorem render_body_sanitized_witness :
    (render sampleProps).body = TextNode.markup "b" := by
  have h := (render_body_sanitized sampleProps sampleReview rfl).1
  rw [h]
  decide

/-- Claim C8: while the review is absent, title, byline and body all
render as `LoadingText` placeholders, and neither the edit affordance nor
the reply-begin affordance renders, whatever the rest of the props (in
particular the authentication state). -/
theorem render_loading_spec (p : Props) (h : p.review = none) :
    (render p).title = TextNode.loading ∧
    (render p).byline = Byline.loading ∧
    (render p).body = TextNode.loading ∧
    (render p).editControl = none ∧
    (render p).replyBegin = false := by
  have he : editShown p = false := by simp [editShown, h]
  have hb : replyBeginShown p = false := by
    cases ha : p.addon <;> simp [replyBeginShown, h, ha]
  simp [render, h, he, hb]

theorem render_loading_spec_witness :
    (render { sampleProps with review := none, isAuthenticated := true }).title
      = TextNode.loading ∧
    (render { sampleProps with review := none, isAuthenticated := true }).editControl
      = none :=
  ⟨(render_loading_spec { sampleProps with review := none, isAuthenticated := true } rfl).1,
   (render_loading_spec { sampleProps with review := none, isAuthenticated := true } rfl).2.2.2.1⟩

/-- Claim C9: `mapStateToProps` leaves `editingReview`, `replyingToReview`
and `submittingReply` all false when the review own-prop is absent or the
view map has no entry for the review's identifier. -/
theorem mapStateToProps_default_flags (state : AppState) (ownPropsReview : Option Review)
    (h : ownPropsReview = none ∨
      ∃ review, ownPropsReview = some review ∧ state.reviews.view review.id = none) :
    (mapStateToProps state ownPropsReview).editingReview = false ∧
    (mapStateToProps state ownPropsReview).replyingToReview = false ∧
    (mapStateToProps state ownPropsReview).submittingReply = false := by
  rcases h with h | ⟨review, hr, hv⟩
  · simp [mapStateToProps, h]
  · simp [mapStateToProps, hr, hv]

theorem mapStateToProps_default_flags_witness :
    (mapStateToProps sampleEmptyState (some sampleReview)).editingReview = false ∧
    (mapStateToProps sampleEmptyState (some sampleReview)).replyingToReview = false ∧
    (mapStateToProps sampleEmptyState (some sampleReview)).submittingReply = false :=
  mapStateToProps_default_flags sampleEmptyState (some sampleReview)
    (Or.inr ⟨sampleReview, rfl, rfl⟩)

/-- Sample props with an active reply composer, a submission in flight and
an outstanding error. -/
def samplePropsSubmitError : Props :=
  { sampleProps with
      replyingToReview := true
      submittingReply := true
      errorHandler := { id := "eh-1", hasError := true } }

/-- Claim C10: whenever `renderReply` produces the reply composer, its
in-progress flag equals `submittingReply && !errorHandler.hasError()` — an
outstanding error suppresses the in-progress indication even while
`submittingReply` is true (as the witness exercises). -/
theorem replyForm_isSubmitting (p : Props) (isSub : Bool) (smt sip : String)
    (text : Option String)
    (h : renderReply p = some (ReplyContent.form isSub smt sip text)) :
    isSub = (p.submittingReply && !p.errorHandler.hasError) := by
  cases hr : p.review with
  | none => simp [renderReply, hr] at h
  | some review =>
    cases hfl : p.replyingToReview with
    | false =>
      cases hrep : review.reply <;> simp [renderReply, hr, hfl, hrep] at h
    | true =>
      simp [renderReply, hr, hfl] at h
      exact h.1.symm

theorem replyForm_isSubmitting_witness :
    renderReply samplePropsSubmitError =
      some (ReplyContent.form false "Publish reply" "Publishing reply" none) ∧
    (false : Bool) =
      (samplePropsSubmitError.submittingReply &&
        !samplePropsSubmitError.errorHandler.hasError) :=
  ⟨rfl,
   replyForm_isSubmitting samplePropsSubmitError
     false "Publish reply" "Publishing reply" none rfl⟩

end AddonReviewListItem
